import Mathlib

/-!
Shallow embedding of the synthesis request pipeline of `webui.py`
(Supertonic TTS demo): the asset locator (`get_voice_styles`), the lazy
model lifecycle manager (`load_model`), and the synthesis orchestrator
(`generate_audio`), together with the path and string primitives they
use (`os.path.join`, `os.path.exists`, `os.path.basename`, `glob` with
the pattern `*.json`, `str.strip`, and `%.2f` float formatting).

The external collaborators (the ONNX engine, the style decoder, the
filesystem) are modelled as explicit data: a `FS` value describes which
paths exist, an `Env` value carries the engine constructor and the style
decoder as oracles that either succeed or raise, and the process-global
`tts_model` variable becomes an explicit `MState` threaded through the
calls.  Instrumentation fields (`loadCount`, `engineCalls`) count the
underlying engine constructions and inference invocations so that
"exactly one construction" and "the engine is not invoked" become
statable; they change no observable behaviour.
-/

/-- The Python whitespace characters relevant to `str.strip` (ASCII model). -/
def pyWhitespaceChars : List Char := [' ', '\t', '\n', '\r', '\x0b', '\x0c']

/-- `not text.strip()` in Python: true iff the string is empty or all whitespace. -/
def pyBlank (s : String) : Bool := s.data.all (fun c => pyWhitespaceChars.contains c)

/-- Python `s.startswith(p)`, at the character-list level. -/
def strStartsWith (s p : String) : Bool := p.data.isPrefixOf s.data

/-- Python `s.endswith(p)`, at the character-list level. -/
def strEndsWith (s p : String) : Bool := p.data.isSuffixOf s.data

/-- Python `sub in s`: some tail of `s` has `sub` as a prefix. -/
def strContainsSub (s sub : String) : Bool :=
  s.data.tails.any (fun t => sub.data.isPrefixOf t)

/-- Configuration constant `ONNX_DIR` (webui.py line 8). -/
def ONNX_DIR : String := "assets/onnx"

/-- Configuration constant `VOICE_STYLES_DIR` (webui.py line 9). -/
def VOICE_STYLES_DIR : String := "assets/voice_styles"

/-- Configuration constant `DEFAULT_SPEED` (webui.py line 10). -/
def DEFAULT_SPEED : ℚ := mkRat 105 100

/-- Configuration constant `DEFAULT_STEPS` (webui.py line 11). -/
def DEFAULT_STEPS : ℤ := 5

/-- The filesystem as the pipeline observes it: whether the engine-asset
directory exists, the listing of the voice-style directory (`none` means
the directory is absent), and any further existing paths. -/
structure FS where
  onnxDirExists : Bool
  styleDir : Option (List String)
  extraPaths : List String

/-- `os.path.join` on POSIX for two components: an absolute second
component replaces the first, otherwise a single separator is inserted
unless the first part is empty or already ends in one. -/
def osPathJoin (a b : String) : String :=
  if strStartsWith b "/" then b
  else if a == "" || strEndsWith a "/" then a ++ b
  else a ++ "/" ++ b

/-- `os.path.exists` against an `FS` value: the engine directory, the
style directory and its entries, and the extra paths. -/
def osPathExists (fs : FS) (p : String) : Bool :=
  (fs.onnxDirExists && p == ONNX_DIR)
  || (match fs.styleDir with
      | none => false
      | some entries =>
        p == VOICE_STYLES_DIR || entries.any (fun n => p == VOICE_STYLES_DIR ++ "/" ++ n))
  || fs.extraPaths.contains p

/-- `os.path.basename`: the component after the last separator. -/
def osPathBasename (p : String) : String :=
  String.mk ((p.data.reverse.takeWhile (fun c => c != '/')).reverse)

/-- `os.path.isabs` on POSIX: the path starts with a separator. -/
def isAbsolutePath (p : String) : Bool := strStartsWith p "/"

/-- Whether a directory entry is matched by the glob pattern `*.json`:
it must end in `.json`, and glob treats names beginning with a dot as
hidden, so they are never matched by a pattern starting with `*`. -/
def globMatchJson (n : String) : Bool :=
  !(strStartsWith n ".") && strEndsWith n ".json"

/-- `glob.glob(os.path.join(VOICE_STYLES_DIR, "*.json"))`: the matching
entries of the style directory, as full joined paths; empty when the
directory does not exist. -/
def globStyleJsonPaths (fs : FS) : List String :=
  match fs.styleDir with
  | none => []
  | some entries =>
    (entries.filter globMatchJson).map (fun n => VOICE_STYLES_DIR ++ "/" ++ n)

/-- `get_voice_styles` (webui.py lines 16-22): return `[]` when the style
directory does not exist, otherwise the base filenames of the glob hits. -/
def get_voice_styles (fs : FS) : List String :=
  if osPathExists fs VOICE_STYLES_DIR = false then []
  else (globStyleJsonPaths fs).map osPathBasename

/-- A Python exception as the pipeline observes it: the message that
`str(e)` yields, and the traceback text that `traceback.print_exc`
emits to the operator console. -/
structure PyExc where
  msg : String
  trace : String
deriving DecidableEq

/-- A decoded voice style; an opaque token in this model. -/
abbrev VoiceStyle := Nat

/-- The engine handle returned by `load_text_to_speech`: its sample rate
attribute and its `__call__`, which may raise. The call receives
`(text, style, total_steps, speed)` and returns `(wav, duration)`. -/
structure Engine where
  sample_rate : Nat
  run : String → VoiceStyle → ℤ → ℚ → Except PyExc (List (List ℚ) × List ℚ)

/-- The external collaborators of one call: the filesystem, the engine
constructor `load_text_to_speech(ONNX_DIR, use_gpu=False)`, and the
style decoder `load_voice_style`. -/
structure Env where
  fs : FS
  construct : Except PyExc Engine
  decodeStyle : List String → Except PyExc VoiceStyle

/-- The process-global state: the `tts_model` variable (webui.py line 14)
plus an instrumentation counter of underlying engine constructions. -/
structure MState where
  tts_model : Option Engine
  loadCount : Nat

/-- The `FileNotFoundError` raised by `load_model` when the engine-asset
directory is missing (webui.py line 29); its message interpolates
`ONNX_DIR`. -/
def fileNotFoundExc : PyExc :=
  { msg := "ONNX directory not found at \x27" ++ ONNX_DIR
      ++ "\x27. Please ensure assets are correctly linked."
    trace := "Traceback (most recent call last): FileNotFoundError" }

/-- `load_model` (webui.py lines 24-33). Returns the engine or the raised
exception, the updated global state, and the console lines printed.
A stored handle is returned as is; otherwise the directory check runs,
and on success the constructed handle is stored. -/
def load_model (env : Env) (s : MState) :
    Except PyExc Engine × MState × List String :=
  match s.tts_model with
  | some m => (Except.ok m, s, [])
  | none =>
    if osPathExists env.fs ONNX_DIR = false then
      (Except.error fileNotFoundExc, s, [])
    else
      match env.construct with
      | Except.error e =>
        (Except.error e, s, ["Loading TTS model from " ++ ONNX_DIR ++ "..."])
      | Except.ok m =>
        (Except.ok m, { tts_model := some m, loadCount := s.loadCount + 1 },
         ["Loading TTS model from " ++ ONNX_DIR ++ "...", "Model loaded successfully."])

/-- Kernel-computable rational addition; equal to `HAdd.hAdd` on `ℚ`
(lemma `qAdd_eq_add`), used so that concrete pipeline runs evaluate. -/
def qAdd (a b : ℚ) : ℚ := mkRat (a.num * b.den + b.num * a.den) (a.den * b.den)

/-- `numpy.sum` over the per-segment duration array, via `qAdd`;
equal to `List.sum` (lemma `ratSum_eq_sum`). -/
def ratSum (l : List ℚ) : ℚ := l.foldr qAdd 0

/-- Round a rational to an integer count of hundredths, ties to even,
as `%.2f` formatting does. -/
def roundHalfEven100 (q : ℚ) : ℤ :=
  let t : ℤ := 100 * q.num
  let d : ℤ := (q.den : ℤ)
  let f := Int.ediv t d
  let r := Int.emod t d
  if 2 * r < d then f
  else if d < 2 * r then f + 1
  else if f % 2 = 0 then f else f + 1

/-- Two-digit zero padding for the fractional part. -/
def padTwo (k : Nat) : String := if k < 10 then "0" ++ toString k else toString k

/-- Python `f"{q:.2f}"`: the value formatted to two decimal places. -/
def formatFixed2 (q : ℚ) : String :=
  let c := roundHalfEven100 q
  let sign := if c < 0 then "-" else ""
  let m := c.natAbs
  sign ++ toString (m / 100) ++ "." ++ padTwo (m % 100)

/-- The duration part of the success message (webui.py line 64):
`f"Duration: {duration.sum():.2f}s"`. -/
def durationSummary (ds : List ℚ) : String :=
  "Duration: " ++ formatFixed2 (ratSum ds) ++ "s"

/-- The style path resolution of webui.py line 45:
`os.path.join(VOICE_STYLES_DIR, voice_style_name)`. -/
def resolvedStylePath (name : String) : String := osPathJoin VOICE_STYLES_DIR name

/-- The observable outcome of one `generate_audio` call: the audio value
(`none` on failure), the status message, the console lines printed, the
global state afterwards, and an instrumentation count of engine
inference invocations. -/
structure GenOut where
  audio : Option (Nat × List ℚ)
  status : String
  logs : List String
  state : MState
  engineCalls : Nat

/-- `generate_audio` (webui.py lines 35-69). The whole body sits in a
`try` block whose handler prints the traceback and returns
`(None, f"Error: {str(e)}")`; here each oracle failure flows to that
handler explicitly. -/
def generate_audio (env : Env) (text voice_style_name : String)
    (speed : ℚ) (total_steps : ℤ) (s : MState) : GenOut :=
  if pyBlank text then
    { audio := none, status := "Please enter some text.", logs := [], state := s
      engineCalls := 0 }
  else if voice_style_name == "" then
    { audio := none, status := "Please select a voice style.", logs := [], state := s
      engineCalls := 0 }
  else
    match load_model env s with
    | (Except.error e, s1, lg) =>
      { audio := none, status := "Error: " ++ e.msg, logs := lg ++ [e.trace]
        state := s1, engineCalls := 0 }
    | (Except.ok model, s1, lg) =>
      let voice_style_path := resolvedStylePath voice_style_name
      if osPathExists env.fs voice_style_path = false then
        { audio := none, status := "Voice style file not found: " ++ voice_style_path
          logs := lg, state := s1, engineCalls := 0 }
      else
        match env.decodeStyle [voice_style_path] with
        | Except.error e =>
          { audio := none, status := "Error: " ++ e.msg, logs := lg ++ [e.trace]
            state := s1, engineCalls := 0 }
        | Except.ok style =>
          match model.run text style total_steps speed with
          | Except.error e =>
            { audio := none, status := "Error: " ++ e.msg, logs := lg ++ [e.trace]
              state := s1, engineCalls := 1 }
          | Except.ok (wav, duration) =>
            { audio := some (model.sample_rate, wav.flatten)
              status := "Generated successfully. " ++ durationSummary duration
              logs := lg, state := s1, engineCalls := 1 }

/-! ### Concrete fixtures used by counterexamples and witnesses -/

/-- A concrete working engine: inference succeeds with one segment of
duration 1. -/
def demoEngine : Engine :=
  { sample_rate := 44100, run := fun _ _ _ _ => Except.ok ([[0]], [(1 : ℚ)]) }

/-- A style decoder that always succeeds. -/
def demoDecode : List String → Except PyExc VoiceStyle := fun _ => Except.ok 0

/-- Filesystem with the engine directory present and one style file. -/
def fsFull : FS :=
  { onnxDirExists := true, styleDir := some ["voice.json"], extraPaths := [] }

/-- Fully working environment. -/
def envFull : Env :=
  { fs := fsFull, construct := Except.ok demoEngine, decodeStyle := demoDecode }

/-- Like `fsFull` but with the engine directory absent. -/
def fsNoOnnx : FS :=
  { onnxDirExists := false, styleDir := some ["voice.json"], extraPaths := [] }

/-- Environment whose engine directory is absent. -/
def envNoOnnx : Env :=
  { fs := fsNoOnnx, construct := Except.ok demoEngine, decodeStyle := demoDecode }

/-- Filesystem whose style directory holds a file that exists but does
not match the `*.json` pattern, so it is absent from the listing. -/
def fsTxt : FS :=
  { onnxDirExists := true, styleDir := some ["readme.txt"], extraPaths := [] }

/-- Environment over `fsTxt`. -/
def envTxt : Env :=
  { fs := fsTxt, construct := Except.ok demoEngine, decodeStyle := demoDecode }

/-- Environment whose style decoder raises. -/
def envDecodeFail : Env :=
  { fs := fsFull, construct := Except.ok demoEngine
    decodeStyle := fun _ => Except.error { msg := "boom", trace := "tb" } }

/-- Engine whose inference reports per-segment durations 1.234 and 2.184. -/
def eng342 : Engine :=
  { sample_rate := 44100
    run := fun _ _ _ _ => Except.ok ([[0]], [(1234 : ℚ)/1000, (2184 : ℚ)/1000]) }

/-- Environment over `eng342`. -/
def env342 : Env :=
  { fs := fsFull, construct := Except.ok eng342, decodeStyle := demoDecode }

/-- Filesystem whose style directory holds only a hidden json file. -/
def fsHidden : FS :=
  { onnxDirExists := true, styleDir := some [".hidden.json"], extraPaths := [] }

/-- The initial global state of the process: no model loaded. -/
def sInit : MState := { tts_model := none, loadCount := 0 }

/-- The global state after one successful load of `demoEngine`. -/
def sLoaded : MState := { tts_model := some demoEngine, loadCount := 1 }

/-- Filesystem whose style directory mixes a matching file, a
non-matching file, and a hidden json file. -/
def fsMixed : FS :=
  { onnxDirExists := true
    styleDir := some ["voice.json", "readme.txt", ".hidden.json"]
    extraPaths := [] }

/-- N sequential `load_model` calls, threading only the global state
(the results of the intermediate calls are examined separately). -/
def load_model_iter (env : Env) : Nat → MState → MState
  | 0, s => s
  | Nat.succ n, s => load_model_iter env n (load_model env s).2.1

/-! ### Helper lemmas -/

theorem qAdd_eq_add (a b : ℚ) : qAdd a b = a + b := by
  unfold qAdd; rw [← Rat.add_def']

theorem ratSum_eq_sum (l : List ℚ) : ratSum l = l.sum := by
  induction l with
  | nil => rfl
  | cons a t ih =>
    simp only [ratSum, List.foldr] at ih ⊢
    rw [ih, qAdd_eq_add, List.sum_cons]

theorem strContainsSub_append (a b : String) : strContainsSub (a ++ b) b = true := by
  unfold strContainsSub
  rw [String.data_append]
  simp only [List.any_eq_true, List.mem_tails, List.isPrefixOf_iff_prefix]
  exact ⟨b.data, List.suffix_append _ _, List.prefix_refl _⟩

theorem osPathJoin_nonabs (name : String) (h : strStartsWith name "/" = false) :
    resolvedStylePath name = VOICE_STYLES_DIR ++ "/" ++ name := by
  unfold resolvedStylePath osPathJoin
  rw [h]
  simp only [Bool.false_eq_true, if_false]
  rw [show (VOICE_STYLES_DIR == "" || strEndsWith VOICE_STYLES_DIR "/") = false from by decide]
  simp

theorem isAbs_dir_append (name : String) :
    isAbsolutePath (VOICE_STYLES_DIR ++ "/" ++ name) = false := by
  unfold isAbsolutePath strStartsWith
  rw [String.data_append, String.data_append]
  rw [show VOICE_STYLES_DIR.data = 'a' :: "ssets/voice_styles".data from rfl]
  rw [List.cons_append, List.cons_append, List.isPrefixOf_cons₂]
  simp

theorem basename_join (n : String) (hn : n.data.all (fun c => c != '/') = true) :
    osPathBasename (VOICE_STYLES_DIR ++ "/" ++ n) = n := by
  unfold osPathBasename
  rw [String.data_append, String.data_append, List.reverse_append]
  rw [List.takeWhile_append_of_pos]
  · rw [show ((VOICE_STYLES_DIR.data ++ "/".data).reverse)
        = '/' :: VOICE_STYLES_DIR.data.reverse from by rw [List.reverse_append]; rfl]
    rw [List.takeWhile_cons]
    simp only [show ((('/' : Char) != '/') = false) from by decide, Bool.false_eq_true, if_false]
    rw [List.append_nil, List.reverse_reverse]
  · intro a ha
    rw [List.mem_reverse] at ha
    exact List.all_eq_true.mp hn a ha

theorem voice_styles_of_entries (fs : FS) (es : List String)
    (hsd : fs.styleDir = some es)
    (hall : ∀ n ∈ es, n.data.all (fun c => c != '/') = true) :
    get_voice_styles fs = es.filter globMatchJson := by
  have hex : osPathExists fs VOICE_STYLES_DIR = true := by
    unfold osPathExists
    rw [hsd]
    simp
  unfold get_voice_styles
  rw [hex]
  simp only [Bool.true_eq_false, if_false]
  unfold globStyleJsonPaths
  rw [hsd]
  rw [List.map_map]
  have hcong : ∀ n ∈ es.filter globMatchJson,
      (osPathBasename ∘ fun n => VOICE_STYLES_DIR ++ "/" ++ n) n = id n := by
    intro n hn
    exact basename_join n (hall n (List.mem_of_mem_filter hn))
  rw [List.map_congr_left hcong, List.map_id]

theorem load_model_of_loaded (env : Env) (s : MState) (m : Engine)
    (h : s.tts_model = some m) : load_model env s = (Except.ok m, s, []) := by
  unfold load_model; rw [h]

theorem load_model_iter_loaded (env : Env) (m : Engine) :
    ∀ (n : Nat) (s : MState), s.tts_model = some m → load_model_iter env n s = s := by
  intro n
  induction n with
  | zero => intro s _; rfl
  | succ k ih =>
    intro s h
    unfold load_model_iter
    rw [load_model_of_loaded env s m h]
    exact ih s h

theorem load_model_first (env : Env) (m : Engine)
    (hdir : osPathExists env.fs ONNX_DIR = true)
    (hcon : env.construct = Except.ok m) :
    load_model env sInit =
      (Except.ok m, { tts_model := some m, loadCount := 1 },
       ["Loading TTS model from " ++ ONNX_DIR ++ "...", "Model loaded successfully."]) := by
  unfold load_model sInit
  simp [hdir, hcon]

theorem load_model_iter_from_init (env : Env) (m : Engine)
    (hdir : osPathExists env.fs ONNX_DIR = true)
    (hcon : env.construct = Except.ok m) :
    ∀ k, 1 ≤ k → load_model_iter env k sInit = { tts_model := some m, loadCount := 1 } := by
  intro k hk
  cases k with
  | zero => omega
  | succ j =>
    unfold load_model_iter
    rw [load_model_first env m hdir hcon]
    exact load_model_iter_loaded env m j _ rfl

/-! ### Claims -/

/-- C1, counterexample to the claim as stated: with the engine directory
absent, the first `load_model` call fails with the `FileNotFoundError`
and stores nothing, but a later call made after the directory has been
created succeeds — the existence check IS re-run while no handle is
stored, so the "every later call still fails" part of the claim is
false on the code. -/
theorem C1_counterexample :
    (load_model envNoOnnx sInit).1 = Except.error fileNotFoundExc
    ∧ (load_model envFull ((load_model envNoOnnx sInit).2.1)).1 = Except.ok demoEngine
    ∧ (load_model envFull ((load_model envNoOnnx sInit).2.1)).2.1.tts_model
        = some demoEngine := by
  exact ⟨rfl, rfl, rfl⟩

/-- C1, amended: if the engine-asset directory is absent while no handle
is stored, `load_model` fails with the `FileNotFoundError` whose message
carries the configured path, and the state is unchanged (no partial
handle); the existence check is re-run on each call while no handle is
stored, so a later call that finds the directory present (with a working
constructor) succeeds. -/
theorem C1_theorem (env : Env) (s : MState)
    (hm : s.tts_model = none) (hdir : osPathExists env.fs ONNX_DIR = false) :
    (load_model env s).1 = Except.error fileNotFoundExc
    ∧ strContainsSub fileNotFoundExc.msg ONNX_DIR = true
    ∧ (load_model env s).2.1 = s
    ∧ ∀ env2 m, osPathExists env2.fs ONNX_DIR = true → env2.construct = Except.ok m →
        (load_model env2 ((load_model env s).2.1)).1 = Except.ok m := by
  have hl : load_model env s = (Except.error fileNotFoundExc, s, []) := by
    unfold load_model
    rw [hm]
    simp [hdir]
  refine ⟨by rw [hl], by decide, by rw [hl], ?_⟩
  intro env2 m hdir2 hcon
  rw [hl]
  unfold load_model
  rw [hm]
  simp [hdir2, hcon]

/-- C1, witness for the amended claim at a concrete cold start with the
directory absent, then a call against the directory present. -/
theorem C1_witness :
    (load_model envNoOnnx sInit).1 = Except.error fileNotFoundExc
    ∧ strContainsSub fileNotFoundExc.msg ONNX_DIR = true
    ∧ (load_model envNoOnnx sInit).2.1 = sInit
    ∧ (load_model envFull ((load_model envNoOnnx sInit).2.1)).1 = Except.ok demoEngine := by
  obtain ⟨a, b, c, d⟩ := C1_theorem envNoOnnx sInit rfl (by decide)
  exact ⟨a, b, c, d envFull demoEngine (by decide) rfl⟩

/-- C2, counterexample to the claim as stated: `readme.txt` exists in the
style directory but is not among the listing (no `.json` suffix); the
request for it succeeds and invokes the engine, and the resulting status
does not contain the resolved path — so "not among the listing" does not
imply the not-found Failure. -/
theorem C2_counterexample :
    get_voice_styles fsTxt = []
    ∧ (generate_audio envTxt "hello" "readme.txt" 1 5 sInit).status
        = "Generated successfully. Duration: 1.00s"
    ∧ (generate_audio envTxt "hello" "readme.txt" 1 5 sInit).engineCalls = 1
    ∧ strContainsSub (generate_audio envTxt "hello" "readme.txt" 1 5 sInit).status
        (resolvedStylePath "readme.txt") = false := by
  exact ⟨rfl, rfl, rfl, by decide⟩

/-- C2, amended: for a request with non-blank text and a nonempty style
name, when engine acquisition succeeds but the resolved style path does
not exist on disk (in particular, for any name that names no entry of
the style directory), `generate_audio` returns the not-found Failure
whose message contains the literal resolved style path, and the engine
inference is not invoked. -/
theorem C2_theorem (env : Env) (text name : String) (speed : ℚ) (steps : ℤ)
    (s : MState) (m : Engine) (s1 : MState) (lg : List String)
    (h1 : pyBlank text = false) (h2 : (name == "") = false)
    (hl : load_model env s = (Except.ok m, s1, lg))
    (hmiss : osPathExists env.fs (resolvedStylePath name) = false) :
    (generate_audio env text name speed steps s).status
      = "Voice style file not found: " ++ resolvedStylePath name
    ∧ strContainsSub (generate_audio env text name speed steps s).status
        (resolvedStylePath name) = true
    ∧ (generate_audio env text name speed steps s).engineCalls = 0
    ∧ (generate_audio env text name speed steps s).audio = none := by
  have hstat : (generate_audio env text name speed steps s).status
      = "Voice style file not found: " ++ resolvedStylePath name := by
    unfold generate_audio
    rw [hl]
    simp [h1, h2, hmiss]
  refine ⟨hstat, ?_, ?_, ?_⟩
  · rw [hstat]
    exact strContainsSub_append _ _
  · unfold generate_audio
    rw [hl]
    simp [h1, h2, hmiss]
  · unfold generate_audio
    rw [hl]
    simp [h1, h2, hmiss]

/-- C2, witness for the amended claim: a nonexistent `ghost.json` against
a working environment yields the not-found Failure with the literal path
and no inference call. -/
theorem C2_witness :
    (generate_audio envFull "hi" "ghost.json" 1 5 sInit).status
      = "Voice style file not found: " ++ resolvedStylePath "ghost.json"
    ∧ strContainsSub (generate_audio envFull "hi" "ghost.json" 1 5 sInit).status
        (resolvedStylePath "ghost.json") = true
    ∧ (generate_audio envFull "hi" "ghost.json" 1 5 sInit).engineCalls = 0
    ∧ (generate_audio envFull "hi" "ghost.json" 1 5 sInit).audio = none := by
  exact C2_theorem envFull "hi" "ghost.json" 1 5 sInit demoEngine
    { tts_model := some demoEngine, loadCount := 1 }
    ["Loading TTS model from " ++ ONNX_DIR ++ "...", "Model loaded successfully."]
    (by decide) (by decide) rfl (by decide)

/-- C3, counterexample to the claim as stated: `voice.json` is accepted
by the orchestrator (the request succeeds), yet the resolved style path
is not an absolute path — the configured style directory is relative. -/
theorem C3_counterexample :
    (generate_audio envFull "hi" "voice.json" 1 5 sInit).status
      = "Generated successfully. Duration: 1.00s"
    ∧ isAbsolutePath (resolvedStylePath "voice.json") = false := by
  exact ⟨rfl, by decide⟩

/-- C3, amended: the resolved style path is the configured style
directory joined with the name; it is absolute exactly when the name
itself starts with a separator, and for a non-absolute name it is the
relative path directly under the configured style directory. -/
theorem C3_theorem (name : String) :
    isAbsolutePath (resolvedStylePath name) = strStartsWith name "/"
    ∧ (strStartsWith name "/" = false →
        resolvedStylePath name = VOICE_STYLES_DIR ++ "/" ++ name
        ∧ strStartsWith (resolvedStylePath name) (VOICE_STYLES_DIR ++ "/") = true) := by
  cases h : strStartsWith name "/" with
  | false =>
    have hj := osPathJoin_nonabs name h
    refine ⟨by rw [hj]; exact isAbs_dir_append name, fun _ => ⟨hj, ?_⟩⟩
    rw [hj]
    unfold strStartsWith
    simp only [String.data_append, List.isPrefixOf_iff_prefix, decide_eq_true_eq]
    exact List.prefix_append _ _
  | true =>
    have hj : resolvedStylePath name = name := by
      unfold resolvedStylePath osPathJoin
      rw [h]
      simp
    refine ⟨by rw [hj]; exact h, fun h2 => ?_⟩
    exact Bool.noConfusion h2

/-- C3, witness for the amended claim at the concrete accepted name. -/
theorem C3_witness :
    isAbsolutePath (resolvedStylePath "voice.json") = strStartsWith "voice.json" "/"
    ∧ resolvedStylePath "voice.json" = VOICE_STYLES_DIR ++ "/" ++ "voice.json"
    ∧ strStartsWith (resolvedStylePath "voice.json") (VOICE_STYLES_DIR ++ "/") = true := by
  obtain ⟨a, b⟩ := C3_theorem "voice.json"
  obtain ⟨c, d⟩ := b (by decide)
  exact ⟨a, c, d⟩

/-- C4: a request whose text is empty or whitespace-only returns exactly
the Failure "Please enter some text." with no engine invocation, no
console output, and the state untouched, regardless of every other
input and of the environment — the check short-circuits everything. -/
theorem C4_theorem (env : Env) (text name : String) (speed : ℚ) (steps : ℤ)
    (s : MState) (h : pyBlank text = true) :
    generate_audio env text name speed steps s =
      { audio := none, status := "Please enter some text.", logs := [], state := s
        engineCalls := 0 } := by
  simp [generate_audio, h]

/-- C4, witness at whitespace-only text. -/
theorem C4_witness :
    generate_audio envFull "  \t\n" "voice.json" 1 5 sInit =
      { audio := none, status := "Please enter some text.", logs := [], state := sInit
        engineCalls := 0 } := by
  exact C4_theorem envFull "  \t\n" "voice.json" 1 5 sInit (by decide)

/-- C5: from a cold start in a working environment, N sequential
`load_model` calls (N at least 1) perform exactly one underlying
construction, leave the constructed handle stored, and every one of the
N calls returns that same handle. -/
theorem C5_theorem (env : Env) (m : Engine)
    (hdir : osPathExists env.fs ONNX_DIR = true)
    (hcon : env.construct = Except.ok m) (N : Nat) (hN : 1 ≤ N) :
    (load_model_iter env N sInit).tts_model = some m
    ∧ (load_model_iter env N sInit).loadCount = 1
    ∧ ∀ k, k < N →
        (load_model env (load_model_iter env k sInit)).1 = Except.ok m := by
  have hiter := load_model_iter_from_init env m hdir hcon
  refine ⟨by rw [hiter N hN], by rw [hiter N hN], ?_⟩
  intro k _
  cases k with
  | zero =>
    show (load_model env sInit).1 = Except.ok m
    rw [load_model_first env m hdir hcon]
  | succ j =>
    rw [hiter (j + 1) (by omega)]
    rw [load_model_of_loaded env _ m rfl]

/-- C5, witness: three sequential calls against the working environment
construct once and the third call still returns the stored handle. -/
theorem C5_witness :
    (load_model_iter envFull 3 sInit).tts_model = some demoEngine
    ∧ (load_model_iter envFull 3 sInit).loadCount = 1
    ∧ (load_model envFull (load_model_iter envFull 2 sInit)).1 = Except.ok demoEngine := by
  obtain ⟨a, b, c⟩ := C5_theorem envFull demoEngine (by decide) rfl 3 (by decide)
  exact ⟨a, b, c 2 (by decide)⟩

/-- C6: for a request that passes the two input validations, an exception
raised by any of the three oracle stages — engine acquisition, style
decoding, or inference — is converted into the Failure outcome whose
message is "Error: " followed by the exception message, with no audio,
and the traceback text goes to the console log, not into the status. -/
theorem C6_theorem (env : Env) (text name : String) (speed : ℚ) (steps : ℤ)
    (s : MState) (e : PyExc)
    (h1 : pyBlank text = false) (h2 : (name == "") = false) :
    (∀ s1 lg, load_model env s = (Except.error e, s1, lg) →
      (generate_audio env text name speed steps s).status = "Error: " ++ e.msg
      ∧ e.trace ∈ (generate_audio env text name speed steps s).logs
      ∧ (generate_audio env text name speed steps s).audio = none)
    ∧ (∀ m s1 lg, load_model env s = (Except.ok m, s1, lg) →
        osPathExists env.fs (resolvedStylePath name) = true →
        env.decodeStyle [resolvedStylePath name] = Except.error e →
        (generate_audio env text name speed steps s).status = "Error: " ++ e.msg
        ∧ e.trace ∈ (generate_audio env text name speed steps s).logs
        ∧ (generate_audio env text name speed steps s).audio = none)
    ∧ (∀ m s1 lg st, load_model env s = (Except.ok m, s1, lg) →
        osPathExists env.fs (resolvedStylePath name) = true →
        env.decodeStyle [resolvedStylePath name] = Except.ok st →
        m.run text st steps speed = Except.error e →
        (generate_audio env text name speed steps s).status = "Error: " ++ e.msg
        ∧ e.trace ∈ (generate_audio env text name speed steps s).logs
        ∧ (generate_audio env text name speed steps s).audio = none) := by
  refine ⟨?_, ?_, ?_⟩
  · intro s1 lg hl
    unfold generate_audio
    rw [hl]
    simp [h1, h2]
  · intro m s1 lg hl hex hdec
    unfold generate_audio
    rw [hl]
    simp [h1, h2, hex, hdec]
  · intro m s1 lg st hl hex hdec hrun
    unfold generate_audio
    rw [hl]
    simp [h1, h2, hex, hdec, hrun]

/-- C6, witness: a style decoder that raises with message "boom" and
traceback "tb" yields status "Error: boom", the traceback in the log,
and no audio. -/
theorem C6_witness :
    (generate_audio envDecodeFail "hi" "voice.json" 1 5 sInit).status = "Error: boom"
    ∧ "tb" ∈ (generate_audio envDecodeFail "hi" "voice.json" 1 5 sInit).logs
    ∧ (generate_audio envDecodeFail "hi" "voice.json" 1 5 sInit).audio = none := by
  have h := (C6_theorem envDecodeFail "hi" "voice.json" 1 5 sInit
    { msg := "boom", trace := "tb" } (by decide) (by decide)).2.1
  exact h demoEngine { tts_model := some demoEngine, loadCount := 1 }
    ["Loading TTS model from " ++ ONNX_DIR ++ "...", "Model loaded successfully."]
    rfl (by decide) rfl

/-- C7: on the success path the status message is "Generated
successfully. " followed by the duration summary, which is the sum of
the per-segment durations formatted to two decimal places followed by
the seconds unit; at durations 1.234 and 2.184 the summary is exactly
"Duration: 3.42s". -/
theorem C7_theorem (env : Env) (text name : String) (speed : ℚ) (steps : ℤ)
    (s : MState) (m : Engine) (s1 : MState) (lg : List String) (st : VoiceStyle)
    (w : List (List ℚ)) (ds : List ℚ)
    (h1 : pyBlank text = false) (h2 : (name == "") = false)
    (hl : load_model env s = (Except.ok m, s1, lg))
    (hex : osPathExists env.fs (resolvedStylePath name) = true)
    (hdec : env.decodeStyle [resolvedStylePath name] = Except.ok st)
    (hrun : m.run text st steps speed = Except.ok (w, ds)) :
    (generate_audio env text name speed steps s).status
      = "Generated successfully. " ++ durationSummary ds
    ∧ durationSummary ds = "Duration: " ++ formatFixed2 ds.sum ++ "s"
    ∧ (ds = [(1234 : ℚ)/1000, (2184 : ℚ)/1000] →
        (generate_audio env text name speed steps s).status
          = "Generated successfully. Duration: 3.42s") := by
  have hmain : (generate_audio env text name speed steps s).status
      = "Generated successfully. " ++ durationSummary ds := by
    unfold generate_audio
    rw [hl]
    simp [h1, h2, hex, hdec, hrun]
  refine ⟨hmain, by unfold durationSummary; rw [ratSum_eq_sum], ?_⟩
  intro hds
  rw [hmain, hds]
  rw [show (1234 : ℚ)/1000 = mkRat 1234 1000 from by
    rw [Rat.mkRat_eq_divInt, Rat.divInt_eq_div]; norm_num]
  rw [show (2184 : ℚ)/1000 = mkRat 2184 1000 from by
    rw [Rat.mkRat_eq_divInt, Rat.divInt_eq_div]; norm_num]
  decide

/-- C7, witness: an engine reporting per-segment durations 1.234 and
2.184 yields exactly the status "Generated successfully. Duration:
3.42s". -/
theorem C7_witness :
    (generate_audio env342 "hi" "voice.json" 1 5 sInit).status
      = "Generated successfully. Duration: 3.42s" := by
  have h := C7_theorem env342 "hi" "voice.json" 1 5 sInit eng342
    { tts_model := some eng342, loadCount := 1 }
    ["Loading TTS model from " ++ ONNX_DIR ++ "...", "Model loaded successfully."]
    0 [[0]] [(1234 : ℚ)/1000, (2184 : ℚ)/1000]
    (by decide) (by decide) rfl (by decide) rfl rfl
  exact h.2.2 rfl

/-- C8, counterexample to the claim as stated: the hidden file
`.hidden.json` matches the fixed style-asset suffix, yet the listing of
a directory containing only it is empty — the glob pattern never matches
names that start with a dot. -/
theorem C8_counterexample :
    strEndsWith ".hidden.json" ".json" = true
    ∧ get_voice_styles fsHidden = [] := by
  exact ⟨by decide, rfl⟩

/-- C8, amended: when the style directory does not exist the listing is
the empty sequence (not an error); otherwise it returns, for every
non-hidden file of the directory (name not starting with a dot) that
ends in the style-asset suffix, the base filename with no path prefix —
dot-prefixed files are excluded by the glob pattern. -/
theorem C8_theorem (fs : FS) :
    (fs.styleDir = none → get_voice_styles fs = [])
    ∧ (∀ es, fs.styleDir = some es →
        (∀ n ∈ es, n.data.all (fun c => c != '/') = true) →
        get_voice_styles fs = es.filter globMatchJson) := by
  constructor
  · intro h
    unfold get_voice_styles globStyleJsonPaths
    rw [h]
    split
    · rfl
    · rfl
  · intro es hsd hall
    exact voice_styles_of_entries fs es hsd hall

/-- C8, witness: a directory holding a matching file, a non-matching
file, and a hidden json file lists exactly the matching base filename. -/
theorem C8_witness :
    get_voice_styles fsMixed
      = List.filter globMatchJson ["voice.json", "readme.txt", ".hidden.json"]
    ∧ get_voice_styles fsMixed = ["voice.json"] := by
  have h := (C8_theorem fsMixed).2 ["voice.json", "readme.txt", ".hidden.json"]
    rfl (by decide)
  exact ⟨h, by rw [h]; decide⟩

/-- C9: on a cold start, a request with valid text and style name whose
resolved style path is missing still performs the full engine load —
the constructed handle is stored and the construction counter increases —
before the not-found Failure is returned without invoking inference. -/
theorem C9_theorem (env : Env) (text name : String) (speed : ℚ) (steps : ℤ)
    (s : MState) (m : Engine)
    (hcold : s.tts_model = none)
    (h1 : pyBlank text = false) (h2 : (name == "") = false)
    (hdir : osPathExists env.fs ONNX_DIR = true)
    (hcon : env.construct = Except.ok m)
    (hmiss : osPathExists env.fs (resolvedStylePath name) = false) :
    (generate_audio env text name speed steps s).status
      = "Voice style file not found: " ++ resolvedStylePath name
    ∧ (generate_audio env text name speed steps s).state.tts_model = some m
    ∧ (generate_audio env text name speed steps s).state.loadCount = s.loadCount + 1
    ∧ (generate_audio env text name speed steps s).engineCalls = 0 := by
  have hl : load_model env s =
      (Except.ok m, { tts_model := some m, loadCount := s.loadCount + 1 },
       ["Loading TTS model from " ++ ONNX_DIR ++ "...", "Model loaded successfully."]) := by
    unfold load_model
    rw [hcold]
    simp [hdir, hcon]
  refine ⟨?_, ?_, ?_, ?_⟩ <;> (unfold generate_audio; rw [hl]; simp [h1, h2, hmiss])

/-- C9, witness: a cold start with a missing `ghost.json` pays for the
engine load and then reports the not-found Failure. -/
theorem C9_witness :
    (generate_audio envFull "hi" "ghost.json" 1 5 sInit).status
      = "Voice style file not found: " ++ resolvedStylePath "ghost.json"
    ∧ (generate_audio envFull "hi" "ghost.json" 1 5 sInit).state.tts_model
        = some demoEngine
    ∧ (generate_audio envFull "hi" "ghost.json" 1 5 sInit).state.loadCount
        = sInit.loadCount + 1
    ∧ (generate_audio envFull "hi" "ghost.json" 1 5 sInit).engineCalls = 0 := by
  exact C9_theorem envFull "hi" "ghost.json" 1 5 sInit demoEngine rfl
    (by decide) (by decide) (by decide) rfl (by decide)

/-- C10: once a handle is stored, neither `load_model` nor any
`generate_audio` call — succeeding or failing — changes the global
state: the same stored instance is reused and the construction counter
stays put. -/
theorem C10_theorem (env : Env) (text name : String) (speed : ℚ) (steps : ℤ)
    (s : MState) (h : Engine) (hm : s.tts_model = some h) :
    (generate_audio env text name speed steps s).state = s
    ∧ load_model env s = (Except.ok h, s, []) := by
  have hl := load_model_of_loaded env s h hm
  refine ⟨?_, hl⟩
  cases hb : pyBlank text with
  | true => simp [generate_audio, hb]
  | false =>
    cases hn : (name == "") with
    | true => simp [generate_audio, hb, hn]
    | false =>
      cases hex : osPathExists env.fs (resolvedStylePath name) with
      | false =>
        unfold generate_audio
        rw [hl]
        simp [hb, hn, hex]
      | true =>
        cases hdec : env.decodeStyle [resolvedStylePath name] with
        | error e =>
          unfold generate_audio
          rw [hl]
          simp [hb, hn, hex, hdec]
        | ok st =>
          cases hrun : h.run text st steps speed with
          | error e =>
            unfold generate_audio
            rw [hl]
            simp [hb, hn, hex, hdec, hrun]
          | ok p =>
            obtain ⟨w, ds⟩ := p
            unfold generate_audio
            rw [hl]
            simp [hb, hn, hex, hdec, hrun]

/-- C10, witness: with the handle already stored, a successful request
leaves the state exactly as it was. -/
theorem C10_witness :
    (generate_audio envFull "hi" "voice.json" 1 5 sLoaded).state = sLoaded
    ∧ load_model envFull sLoaded = (Except.ok demoEngine, sLoaded, []) := by
  exact C10_theorem envFull "hi" "voice.json" 1 5 sLoaded demoEngine rfl
